import Mathlib

/-!
Verification of `compute_sales.py`: a shallow embedding of the program's
core (`calculate_total_cost`) and of the load/exit decision in `main`,
together with proofs of the specified properties.

The program receives arbitrary JSON documents, so values are embedded as a
dynamic `Value` type mirroring what `json.load` can produce, and Python's
dynamic semantics (truthiness, hashability, `==` with numeric cross-type
equality, `dict.get`, subscripting, iteration) are modelled explicitly.
Python numbers (int/float) are collapsed into `ℚ`; the spec's numeric
semantics are floating point, but no claim here depends on rounding.
Failures the code does not catch (`KeyError`, `TypeError`,
`AttributeError`) are modelled with `Except`.
-/

namespace ComputeSales

/-- Dynamic values, as produced by `json.load`: JSON objects have string
keys; numbers (int/float) are collapsed into `ℚ`. -/
inductive Value where
  | null
  | bool (b : Bool)
  | num (q : ℚ)
  | str (s : String)
  | list (elems : List Value)
  | dict (entries : List (String × Value))

/-- Exceptions that `calculate_total_cost` can let escape (its only
`try/except` catches `TypeError` around the multiply-accumulate). -/
inductive PyError where
  | keyError
  | typeError
  | attributeError
deriving DecidableEq

deriving instance DecidableEq for Except

/-- Python truthiness, as used by `not product` (line 44) and
`not price_catalogue or not sales_data` (line 79). -/
def Value.truthy : Value → Bool
  | .null => false
  | .bool b => b
  | .num q => !(q == 0)
  | .str s => !(s == "")
  | .list xs => !xs.isEmpty
  | .dict es => !es.isEmpty

/-- Python hashability: lists and dicts are unhashable, so using one as a
dict key (line 40) or membership probe (line 49) raises `TypeError`. -/
def Value.hashable : Value → Bool
  | .list _ => false
  | .dict _ => false
  | _ => true

/-- Numeric view: `int`, `float` and `bool` are the types for which
`price * quantity` followed by `total_cost += ...` (line 56) succeeds;
`bool` is an `int` subclass in Python, with `True = 1`, `False = 0`.
For every other operand shape the statement raises `TypeError` (either at
the multiplication or, e.g. for `str * int`, at the addition), which
line 57 catches. -/
def Value.toNumQ : Value → Option ℚ
  | .num q => some q
  | .bool b => some (if b then 1 else 0)
  | _ => none

/-- Python `str(v)`, as interpolated into the f-string messages
(lines 51 and 58). The numeric case is an approximation (`ℚ` has collapsed
Python's int/float distinction, so the exact rendering is not recoverable);
the list/dict cases are unreachable in every message path, because an
unhashable product raises `TypeError` at line 49 before any message that
names the product is built. All claims interpolate string products, where
`str` is the identity. -/
def Value.pyStr : Value → String
  | .str s => s
  | .null => "None"
  | .bool b => if b then "True" else "False"
  | .num q => toString q
  | .list _ => "<list>"
  | .dict _ => "<dict>"

mutual

/-- Python `==`, as used by dict key lookup and the `in` test: numbers and
booleans compare by numeric value across types, everything else by
structure; values of different non-numeric types are unequal. -/
def Value.pyEq : Value → Value → Bool
  | .null, .null => true
  | .bool a, .bool b => a == b
  | .num a, .num b => a == b
  | .num a, .bool b => a == (if b then (1 : ℚ) else 0)
  | .bool a, .num b => (if a then (1 : ℚ) else 0) == b
  | .str a, .str b => a == b
  | .list as, .list bs => Value.pyEqList as bs
  | .dict as, .dict bs => Value.pyEqDict as bs
  | _, _ => false

def Value.pyEqList : List Value → List Value → Bool
  | [], [] => true
  | a :: as, b :: bs => Value.pyEq a b && Value.pyEqList as bs
  | _, _ => false

def Value.pyEqDict : List (String × Value) → List (String × Value) → Bool
  | [], [] => true
  | a :: as, b :: bs => (a.1 == b.1 && Value.pyEq a.2 b.2) && Value.pyEqDict as bs
  | _, _ => false

end

/-- Python subscripting `item["title"]` / `item["price"]` (line 40): on a
dict, a missing key raises `KeyError`; on any non-dict JSON value a string
subscript raises `TypeError`. -/
def Value.getItem : Value → String → Except PyError Value
  | .dict es, k =>
      match es.lookup k with
      | some v => .ok v
      | none => .error .keyError
  | _, _ => .error .typeError

/-- Python `sale.get(key)` (lines 42-43): defined only on dicts, returning
`None` for a missing key; any non-dict receiver has no `get` attribute and
raises `AttributeError`. -/
def Value.pyGet : Value → String → Except PyError Value
  | .dict es, k => .ok ((es.lookup k).getD .null)
  | _, _ => .error .attributeError

/-- Python iteration, as used by the comprehension over `price_catalogue`
(line 40) and the `for` loop over `sales_data` (line 41): lists yield their
elements, strings their characters, dicts their keys; other values are not
iterable and raise `TypeError`. -/
def Value.pyIter : Value → Except PyError (List Value)
  | .list xs => .ok xs
  | .str s => .ok (s.toList.map (fun c => Value.str (String.mk [c])))
  | .dict es => .ok (es.map (fun e => Value.str e.1))
  | _ => .error .typeError

/-- The price dictionary built on line 40. It is kept as the list of
insertions, most recent first, so that the first `pyEq` match realises
Python's overwrite-on-equal-key (last-write-wins) semantics. -/
abbrev PriceDict := List (Value × Value)

/-- Membership of a key in the price dict, by Python equality. -/
def dictHasKey (d : PriceDict) (k : Value) : Bool :=
  d.any (fun e => e.1.pyEq k)

/-- Lookup `price_dict[product]` (line 55): the most recent binding whose
key is Python-equal to the probe. -/
def dictLookup (d : PriceDict) (k : Value) : Option Value :=
  (d.find? (fun e => e.1.pyEq k)).map (fun e => e.2)

/-- The test `product not in price_dict` (line 49): probing with an
unhashable value raises `TypeError` (uncaught there). -/
def dictContains (d : PriceDict) (k : Value) : Except PyError Bool :=
  if k.hashable then .ok (dictHasKey d k) else .error .typeError

/-- The dict comprehension
`{item["title"]: item["price"] for item in price_catalogue}` (line 40):
each item is subscripted with `"title"` and `"price"` in turn, and the
pair is inserted (raising `TypeError` if the title is unhashable). The
accumulator keeps insertions most recent first. -/
def buildPriceDict : List Value → PriceDict → Except PyError PriceDict
  | [], acc => .ok acc
  | item :: rest, acc =>
      match item.getItem "title" with
      | .error e => .error e
      | .ok t =>
          match item.getItem "price" with
          | .error e => .error e
          | .ok p =>
              if t.hashable then buildPriceDict rest ((t, p) :: acc)
              else .error .typeError

/-- The body of the `for` loop (lines 42-58) for one sale record `s`,
acting on the running total `t` and warning list `w`. -/
def processSale (d : PriceDict) (t : ℚ) (w : List String) (s : Value) :
    Except PyError (ℚ × List String) :=
  match s.pyGet "Product" with
  | .error e => .error e
  | .ok product =>
      match s.pyGet "Quantity" with
      | .error e => .error e
      | .ok quantity =>
          if product.truthy = false then
            .ok (t, w ++ ["Warning: Sale record with a missing product name."])
          else
            match dictContains d product with
            | .error e => .error e
            | .ok mem =>
                if mem = false then
                  .ok (t, w ++ ["Warning: '" ++ product.pyStr ++
                    "' is not listed in the price catalogue."])
                else
                  match ((dictLookup d product).getD .null).toNumQ,
                      quantity.toNumQ with
                  | some p, some q => .ok (t + p * q, w)
                  | _, _ =>
                      .ok (t, w ++ ["Error: Invalid price format for '" ++
                        product.pyStr ++ "'."])

/-- The `for` loop over the sale records (lines 41-58). -/
def processSales (d : PriceDict) : List Value → ℚ → List String →
    Except PyError (ℚ × List String)
  | [], t, w => .ok (t, w)
  | s :: rest, t, w =>
      match processSale d t w s with
      | .error e => .error e
      | .ok r => processSales d rest r.1 r.2

/-- `calculate_total_cost(price_catalogue, sales_data)` (lines 36-59):
build the price dict from the catalogue, then fold the loop body over the
sales, starting from `total_cost = 0` and `errors = []`. -/
def calculate_total_cost (price_catalogue sales_data : Value) :
    Except PyError (ℚ × List String) :=
  match price_catalogue.pyIter with
  | .error e => .error e
  | .ok items =>
      match buildPriceDict items [] with
      | .error e => .error e
      | .ok d =>
          match sales_data.pyIter with
          | .error e => .error e
          | .ok sales => processSales d sales 0 []

/-- Outcome of one run of `main` (lines 62-95) after the two loads:
either `sys.exit(1)` before the accumulator is invoked (line 80), or the
accumulator's result (an uncaught exception there also ends the process
with a non-zero status, represented by `accumulated (.error _)`). -/
inductive MainOutcome where
  | exitOne
  | accumulated (result : Except PyError (ℚ × List String))
deriving DecidableEq

/-- Truthiness of a load result: `load_json_file` returns `None` (falsy)
when the file is missing or its JSON is invalid. -/
def optTruthy : Option Value → Bool
  | none => false
  | some v => v.truthy

/-- Lines 77-81 of `main`: given the two `load_json_file` results
(`none` = load failure), `sys.exit(1)` if either is falsy, otherwise call
`calculate_total_cost`. -/
def main_outcome : Option Value → Option Value → MainOutcome
  | some pc, some sd =>
      if pc.truthy && sd.truthy then .accumulated (calculate_total_cost pc sd)
      else .exitOne
  | _, _ => .exitOne

/-! Spec-side descriptions: structured catalogues and sale records, the
price mapping as the spec describes it (last-write-wins), and a per-record
classification (`saleWarning`/`contrib`) used to state the claims. -/

/-- A structured catalogue entry `{title: ..., price: ...}`; the price is
left as a dynamic value so that non-numeric prices are expressible. -/
def catItem (e : String × Value) : Value :=
  .dict [("title", Value.str e.1), ("price", e.2)]

/-- A structured catalogue document: a JSON array of catalogue entries. -/
def catVal (cs : List (String × Value)) : Value :=
  .list (cs.map catItem)

/-- A fully well-formed sale record `{Product: ..., Quantity: ...}` with a
string product and a numeric quantity. -/
def saleVal (s : String × ℚ) : Value :=
  .dict [("Product", Value.str s.1), ("Quantity", Value.num s.2)]

/-- The price dict the program builds from a structured catalogue:
insertions in catalogue order, kept most recent first. -/
def priceDictOf (cs : List (String × Value)) : PriceDict :=
  (cs.map (fun e => (Value.str e.1, e.2))).reverse

/-- The price mapping of the spec (title to price, last catalogue entry
winning on duplicate titles). -/
def priceMapV (cs : List (String × Value)) (t : String) : Option Value :=
  (cs.reverse.find? (fun e => e.1 == t)).map (fun e => e.2)

/-- The numeric price of a listed title, when its price is numeric. -/
def priceOpt (cs : List (String × Value)) (t : String) : Option ℚ :=
  (priceMapV cs t).bind Value.toNumQ

/-- Numeric price with default 0 (only used under a hypothesis that the
title is listed with a numeric price). -/
def priceQ (cs : List (String × Value)) (t : String) : ℚ :=
  (priceOpt cs t).getD 0

/-- Total-function view of `sale.get(key)` for records already known to be
dicts. -/
def pyGetD (s : Value) (k : String) : Value :=
  match s with
  | .dict es => (es.lookup k).getD .null
  | _ => .null

/-- A value that is a JSON object. -/
def isDictV : Value → Bool
  | .dict _ => true
  | _ => false

/-- Sale records on which the loop body cannot raise: dicts whose
`Product` value, when truthy, is hashable. (A falsy product is warned
about before the membership test, so it may be unhashable.) -/
def saleOK : Value → Bool
  | .dict es =>
      !((es.lookup "Product").getD .null).truthy ||
        ((es.lookup "Product").getD .null).hashable
  | _ => false

/-- Catalogue items on which the dict comprehension cannot raise: dicts
with both a `title` and a `price` key, the title hashable. -/
def itemOK : Value → Bool
  | .dict es =>
      (es.lookup "title").isSome &&
        ((es.lookup "price").isSome &&
          ((es.lookup "title").getD .null).hashable)
  | _ => false

/-- The warning/error message one sale record produces, if any: mirrors
the classification in lines 44-58 of the source. -/
def saleWarning (d : PriceDict) (s : Value) : Option String :=
  if (pyGetD s "Product").truthy = false then
    some "Warning: Sale record with a missing product name."
  else if dictHasKey d (pyGetD s "Product") = false then
    some ("Warning: '" ++ (pyGetD s "Product").pyStr ++
      "' is not listed in the price catalogue.")
  else
    match ((dictLookup d (pyGetD s "Product")).getD .null).toNumQ,
        (pyGetD s "Quantity").toNumQ with
    | some _, some _ => none
    | _, _ =>
        some ("Error: Invalid price format for '" ++
          (pyGetD s "Product").pyStr ++ "'.")

/-- The amount one sale record adds to the running total: nonzero only
when the record produces no warning. -/
def contrib (d : PriceDict) (s : Value) : ℚ :=
  if (pyGetD s "Product").truthy = false then 0
  else if dictHasKey d (pyGetD s "Product") = false then 0
  else
    match ((dictLookup d (pyGetD s "Product")).getD .null).toNumQ,
        (pyGetD s "Quantity").toNumQ with
    | some p, some q => p * q
    | _, _ => 0

/-- Sum of the per-record contributions. -/
def totalOf (d : PriceDict) (sales : List Value) : ℚ :=
  (sales.map (contrib d)).sum

/-- The warnings of a run, in input-record order. -/
def warningsOf (d : PriceDict) (sales : List Value) : List String :=
  sales.filterMap (saleWarning d)

/-! Infrastructure lemmas. -/

theorem find?_isSome_eq_any (l : List α) (p : α → Bool) :
    (l.find? p).isSome = l.any p := by
  induction l with
  | nil => rfl
  | cons a l ih => cases h : p a <;> simp [List.find?_cons, h, ih]

/-- One loop iteration on a record that cannot raise: the total grows by
`contrib` and the warning list by the record's warning, if any. -/
theorem processSale_eq (d : PriceDict) (t : ℚ) (w : List String) (s : Value)
    (hs : saleOK s = true) :
    processSale d t w s = .ok (t + contrib d s, w ++ (saleWarning d s).toList) := by
  cases s with
  | null => simp [saleOK] at hs
  | bool b => simp [saleOK] at hs
  | num q => simp [saleOK] at hs
  | str a => simp [saleOK] at hs
  | list xs => simp [saleOK] at hs
  | dict es =>
      simp only [saleOK, Bool.or_eq_true, Bool.not_eq_true'] at hs
      simp only [processSale, Value.pyGet]
      by_cases hp : ((es.lookup "Product").getD Value.null).truthy = false
      · simp [contrib, saleWarning, pyGetD, hp]
      · have hp' : ((es.lookup "Product").getD Value.null).truthy = true := by
          revert hp; cases ((es.lookup "Product").getD Value.null).truthy <;> simp
        have hh : ((es.lookup "Product").getD Value.null).hashable = true := by
          rcases hs with h | h
          · rw [hp'] at h; exact absurd h (by simp)
          · exact h
        simp only [contrib, saleWarning, pyGetD, hp', dictContains, hh, if_true,
          reduceIte]
        by_cases hm : dictHasKey d ((es.lookup "Product").getD Value.null) = false
        · simp [hm]
        · have hm' : dictHasKey d ((es.lookup "Product").getD Value.null) = true := by
            revert hm; cases dictHasKey d ((es.lookup "Product").getD Value.null) <;> simp
          simp only [hm', reduceIte]
          cases hP : ((dictLookup d ((es.lookup "Product").getD Value.null)).getD
              Value.null).toNumQ <;>
            cases hQ : ((es.lookup "Quantity").getD Value.null).toNumQ <;>
              simp [hP, hQ]

/-- The loop over the sale records, on records that cannot raise. -/
theorem processSales_eq (d : PriceDict) (sales : List Value) (t : ℚ)
    (w : List String) (h : ∀ s ∈ sales, saleOK s = true) :
    processSales d sales t w = .ok (t + totalOf d sales, w ++ warningsOf d sales) := by
  induction sales generalizing t w with
  | nil => simp [processSales, totalOf, warningsOf]
  | cons s rest ih =>
      have hs : saleOK s = true := h s (by simp)
      have hr : ∀ x ∈ rest, saleOK x = true := fun x hx => h x (by simp [hx])
      simp only [processSales, processSale_eq d t w s hs]
      rw [ih _ _ hr]
      cases hw : saleWarning d s <;>
        simp [hw, totalOf, warningsOf, List.filterMap_cons, add_assoc]

/-- The dict comprehension on a structured catalogue: succeeds and yields
the insertions most recent first. -/
theorem buildPriceDict_catItems (cs : List (String × Value)) (acc : PriceDict) :
    buildPriceDict (cs.map catItem) acc =
      .ok ((cs.map (fun e => (Value.str e.1, e.2))).reverse ++ acc) := by
  induction cs generalizing acc with
  | nil => simp [buildPriceDict]
  | cons e cs ih =>
      simp +decide [buildPriceDict, catItem, Value.getItem, List.lookup,
        Value.hashable, ih]

/-- Workhorse: `calculate_total_cost` on a structured catalogue and a list
of records that cannot raise. -/
theorem calc_eq (cs : List (String × Value)) (sales : List Value)
    (h : ∀ s ∈ sales, saleOK s = true) :
    calculate_total_cost (catVal cs) (.list sales) =
      .ok (totalOf (priceDictOf cs) sales, warningsOf (priceDictOf cs) sales) := by
  simp only [calculate_total_cost, catVal, Value.pyIter, buildPriceDict_catItems,
    List.append_nil]
  rw [processSales_eq _ _ _ _ h]
  simp [priceDictOf]

theorem pyEq_str (a b : String) : (Value.str a).pyEq (Value.str b) = (a == b) := by
  simp [Value.pyEq]

theorem toNumQ_num (q : ℚ) : (Value.num q).toNumQ = some q := rfl

theorem toNumQ_bool (b : Bool) :
    (Value.bool b).toNumQ = some (if b then 1 else 0) := rfl

theorem dictLookup_mapped (l : List (String × Value)) (t : String) :
    dictLookup (l.map (fun e => (Value.str e.1, e.2))) (Value.str t) =
      (l.find? (fun e => e.1 == t)).map (fun e => e.2) := by
  induction l with
  | nil => rfl
  | cons e l ih =>
      cases h : (e.1 == t) <;>
        simp [dictLookup, List.find?_cons, pyEq_str, h]
      simpa [dictLookup] using ih

theorem dictHasKey_mapped (l : List (String × Value)) (t : String) :
    dictHasKey (l.map (fun e => (Value.str e.1, e.2))) (Value.str t) =
      (l.find? (fun e => e.1 == t)).isSome := by
  induction l with
  | nil => rfl
  | cons e l ih =>
      cases h : (e.1 == t) <;>
        simp [dictHasKey, List.find?_cons, pyEq_str, h]
      simpa [dictHasKey] using ih

/-- Lookup in the built dict agrees with the spec's price mapping
(last catalogue entry wins). -/
theorem dictLookup_priceDictOf (cs : List (String × Value)) (t : String) :
    dictLookup (priceDictOf cs) (Value.str t) = priceMapV cs t := by
  simp only [priceDictOf, priceMapV, ← List.map_reverse]
  exact dictLookup_mapped _ _

/-- Membership in the built dict is listedness in the spec's mapping. -/
theorem dictHasKey_priceDictOf (cs : List (String × Value)) (t : String) :
    dictHasKey (priceDictOf cs) (Value.str t) = (priceMapV cs t).isSome := by
  simp only [priceDictOf, priceMapV, ← List.map_reverse]
  rw [dictHasKey_mapped]
  cases cs.reverse.find? (fun e => e.1 == t) <;> rfl

/-- Fully well-formed records cannot make the loop body raise. -/
theorem saleOK_saleVal (s : String × ℚ) : saleOK (saleVal s) = true := by
  simp +decide [saleOK, saleVal, List.lookup, Value.hashable]

theorem truthy_str_ne (a : String) (h : a ≠ "") : (Value.str a).truthy = true := by
  simp [Value.truthy]; exact h

/-- An anomaly-free record produces no warning. -/
theorem saleWarning_good (cs : List (String × Value)) (s : String × ℚ)
    (h1 : s.1 ≠ "") (h2 : (priceOpt cs s.1).isSome = true) :
    saleWarning (priceDictOf cs) (saleVal s) = none := by
  rcases hv : priceMapV cs s.1 with _ | v
  · rw [priceOpt, hv] at h2; simp at h2
  · rcases hq : v.toNumQ with _ | pq
    · rw [priceOpt, hv] at h2; simp [hq] at h2
    · have hprod : pyGetD (saleVal s) "Product" = Value.str s.1 := by
        simp +decide [pyGetD, saleVal, List.lookup]
      have hqty : pyGetD (saleVal s) "Quantity" = Value.num s.2 := by
        simp +decide [pyGetD, saleVal, List.lookup]
      simp [saleWarning, hprod, hqty, truthy_str_ne _ h1, dictHasKey_priceDictOf,
        dictLookup_priceDictOf, hv, hq, toNumQ_num]

/-- An anomaly-free record contributes its line cost. -/
theorem contrib_good (cs : List (String × Value)) (s : String × ℚ)
    (h1 : s.1 ≠ "") (h2 : (priceOpt cs s.1).isSome = true) :
    contrib (priceDictOf cs) (saleVal s) = priceQ cs s.1 * s.2 := by
  rcases hv : priceMapV cs s.1 with _ | v
  · rw [priceOpt, hv] at h2; simp at h2
  · rcases hq : v.toNumQ with _ | pq
    · rw [priceOpt, hv] at h2; simp [hq] at h2
    · have hprod : pyGetD (saleVal s) "Product" = Value.str s.1 := by
        simp +decide [pyGetD, saleVal, List.lookup]
      have hqty : pyGetD (saleVal s) "Quantity" = Value.num s.2 := by
        simp +decide [pyGetD, saleVal, List.lookup]
      simp [contrib, hprod, hqty, truthy_str_ne _ h1, dictHasKey_priceDictOf,
        dictLookup_priceDictOf, hv, hq, toNumQ_num, priceQ, priceOpt]

/-- A record whose product is falsy is a record the loop cannot raise on. -/
theorem saleOK_of_falsy (s : Value) (hd : isDictV s = true)
    (hp : (pyGetD s "Product").truthy = false) : saleOK s = true := by
  cases s <;> simp [isDictV] at hd
  simp [saleOK, pyGetD] at hp ⊢
  simp [hp]

theorem saleWarning_missing (d : PriceDict) (s : Value)
    (hp : (pyGetD s "Product").truthy = false) :
    saleWarning d s = some "Warning: Sale record with a missing product name." := by
  simp [saleWarning, hp]

theorem contrib_missing (d : PriceDict) (s : Value)
    (hp : (pyGetD s "Product").truthy = false) : contrib d s = 0 := by
  simp [contrib, hp]

theorem saleOK_strProd (p : String) (qv : Value) :
    saleOK (.dict [("Product", Value.str p), ("Quantity", qv)]) = true := by
  simp +decide [saleOK, List.lookup, Value.hashable]

theorem pyGetD_strProd_P (p : String) (qv : Value) :
    pyGetD (.dict [("Product", Value.str p), ("Quantity", qv)]) "Product" =
      Value.str p := by
  simp +decide [pyGetD, List.lookup]

theorem pyGetD_strProd_Q (p : String) (qv : Value) :
    pyGetD (.dict [("Product", Value.str p), ("Quantity", qv)]) "Quantity" = qv := by
  simp +decide [pyGetD, List.lookup]

/-- A truthy product that is not listed yields exactly the unlisted-product
warning. -/
theorem saleWarning_unlisted (cs : List (String × Value)) (p : String) (qv : Value)
    (hp : p ≠ "") (hm : priceMapV cs p = none) :
    saleWarning (priceDictOf cs) (.dict [("Product", .str p), ("Quantity", qv)]) =
      some ("Warning: '" ++ p ++ "' is not listed in the price catalogue.") := by
  simp [saleWarning, pyGetD_strProd_P, pyGetD_strProd_Q, truthy_str_ne _ hp,
    dictHasKey_priceDictOf, hm, Value.pyStr]

theorem contrib_unlisted (cs : List (String × Value)) (p : String) (qv : Value)
    (hp : p ≠ "") (hm : priceMapV cs p = none) :
    contrib (priceDictOf cs) (.dict [("Product", .str p), ("Quantity", qv)]) = 0 := by
  simp [contrib, pyGetD_strProd_P, pyGetD_strProd_Q, truthy_str_ne _ hp,
    dictHasKey_priceDictOf, hm]

/-- A listed product with a non-numeric price or quantity yields exactly
the invalid-price-format error. -/
theorem saleWarning_invalid (cs : List (String × Value)) (p : String) (qv v : Value)
    (hp : p ≠ "") (hv : priceMapV cs p = some v)
    (hbad : v.toNumQ = none ∨ qv.toNumQ = none) :
    saleWarning (priceDictOf cs) (.dict [("Product", .str p), ("Quantity", qv)]) =
      some ("Error: Invalid price format for '" ++ p ++ "'.") := by
  simp only [saleWarning, pyGetD_strProd_P, pyGetD_strProd_Q, truthy_str_ne _ hp,
    dictHasKey_priceDictOf, dictLookup_priceDictOf, hv, Value.pyStr]
  rcases hbad with h | h
  · cases hq2 : qv.toNumQ <;> simp [h, hq2]
  · cases hv2 : v.toNumQ <;> simp [h, hv2]

theorem contrib_invalid (cs : List (String × Value)) (p : String) (qv v : Value)
    (hp : p ≠ "") (hv : priceMapV cs p = some v)
    (hbad : v.toNumQ = none ∨ qv.toNumQ = none) :
    contrib (priceDictOf cs) (.dict [("Product", .str p), ("Quantity", qv)]) = 0 := by
  simp only [contrib, pyGetD_strProd_P, pyGetD_strProd_Q, truthy_str_ne _ hp,
    dictHasKey_priceDictOf, dictLookup_priceDictOf, hv]
  rcases hbad with h | h
  · cases hq2 : qv.toNumQ <;> simp [h, hq2]
  · cases hv2 : v.toNumQ <;> simp [h, hv2]

/-- A boolean quantity on a listed numeric-priced product: no warning. -/
theorem saleWarning_boolQty (cs : List (String × Value)) (t : String) (r : ℚ)
    (b : Bool) (ht : t ≠ "") (hv : priceMapV cs t = some (.num r)) :
    saleWarning (priceDictOf cs)
      (.dict [("Product", .str t), ("Quantity", .bool b)]) = none := by
  simp [saleWarning, pyGetD_strProd_P, pyGetD_strProd_Q, truthy_str_ne _ ht,
    dictHasKey_priceDictOf, dictLookup_priceDictOf, hv, toNumQ_num, toNumQ_bool]

/-- A boolean quantity multiplies as the integer 1 or 0. -/
theorem contrib_boolQty (cs : List (String × Value)) (t : String) (r : ℚ)
    (b : Bool) (ht : t ≠ "") (hv : priceMapV cs t = some (.num r)) :
    contrib (priceDictOf cs)
      (.dict [("Product", .str t), ("Quantity", .bool b)]) =
      r * (if b then 1 else 0) := by
  simp [contrib, pyGetD_strProd_P, pyGetD_strProd_Q, truthy_str_ne _ ht,
    dictHasKey_priceDictOf, dictLookup_priceDictOf, hv, toNumQ_num, toNumQ_bool]

theorem totalOf_append (d : PriceDict) (l1 l2 : List Value) :
    totalOf d (l1 ++ l2) = totalOf d l1 + totalOf d l2 := by
  simp [totalOf]

theorem warningsOf_append (d : PriceDict) (l1 l2 : List Value) :
    warningsOf d (l1 ++ l2) = warningsOf d l1 ++ warningsOf d l2 := by
  simp [warningsOf]

/-- Well-formed sale pairs make records the loop cannot raise on. -/
theorem saleOK_of_mem_map (sales : List (String × ℚ)) :
    ∀ s ∈ sales.map saleVal, saleOK s = true := by
  intro s hs
  obtain ⟨p, _, rfl⟩ := List.mem_map.1 hs
  exact saleOK_saleVal p

/-- Anomaly-free sale pairs sum to the spec's total. -/
theorem totalOf_map_good (cs : List (String × Value)) (sales : List (String × ℚ))
    (h : ∀ s ∈ sales, s.1 ≠ "" ∧ (priceOpt cs s.1).isSome = true) :
    totalOf (priceDictOf cs) (sales.map saleVal) =
      (sales.map (fun s => priceQ cs s.1 * s.2)).sum := by
  unfold totalOf
  rw [List.map_map]
  refine congrArg List.sum (List.map_congr_left fun s hs => ?_)
  exact contrib_good cs s (h s hs).1 (h s hs).2

/-- Anomaly-free sale pairs produce no warnings. -/
theorem warningsOf_map_good (cs : List (String × Value)) (sales : List (String × ℚ))
    (h : ∀ s ∈ sales, s.1 ≠ "" ∧ (priceOpt cs s.1).isSome = true) :
    warningsOf (priceDictOf cs) (sales.map saleVal) = [] := by
  unfold warningsOf
  rw [List.filterMap_map, List.filterMap_eq_nil_iff]
  intro s hs
  exact saleWarning_good cs s (h s hs).1 (h s hs).2

/-- The dict comprehension cannot raise on items with hashable titles and
both keys present. -/
theorem buildPriceDict_ok (items : List Value)
    (hi : ∀ i ∈ items, itemOK i = true) :
    ∀ acc, ∃ d, buildPriceDict items acc = .ok d := by
  induction items with
  | nil => exact fun acc => ⟨acc, rfl⟩
  | cons i rest ih =>
      intro acc
      have hI := hi i (by simp)
      have hr : ∀ x ∈ rest, itemOK x = true := fun x hx => hi x (by simp [hx])
      cases i with
      | null => simp [itemOK] at hI
      | bool b => simp [itemOK] at hI
      | num q => simp [itemOK] at hI
      | str a => simp [itemOK] at hI
      | list xs => simp [itemOK] at hI
      | dict es =>
          simp only [itemOK, Bool.and_eq_true] at hI
          obtain ⟨h1, h2, h3⟩ := hI
          obtain ⟨tv, htv⟩ := Option.isSome_iff_exists.1 h1
          obtain ⟨pv, hpv⟩ := Option.isSome_iff_exists.1 h2
          rw [htv] at h3
          simp only [Option.getD_some] at h3
          simp only [buildPriceDict, Value.getItem, htv, hpv, h3, if_true, reduceIte]
          exact ih hr _

theorem totalOf_cons (d : PriceDict) (s : Value) (l : List Value) :
    totalOf d (s :: l) = contrib d s + totalOf d l := by
  simp [totalOf]

theorem warningsOf_cons (d : PriceDict) (s : Value) (l : List Value) :
    warningsOf d (s :: l) = (saleWarning d s).toList ++ warningsOf d l := by
  cases h : saleWarning d s <;> simp [warningsOf, List.filterMap_cons, h]

/-! Claims. -/

/-- C1: on a catalogue and a sales sequence containing no anomalies (every
record has a nonempty product listed in the catalogue with a numeric
price, and a numeric quantity), `calculate_total_cost` returns the sum of
`price[s.product] * s.quantity` over the records, with no warnings. -/
theorem c1_no_anomaly_total (cs : List (String × Value)) (sales : List (String × ℚ))
    (h : ∀ s ∈ sales, s.1 ≠ "" ∧ (priceOpt cs s.1).isSome = true) :
    calculate_total_cost (catVal cs) (.list (sales.map saleVal)) =
      .ok ((sales.map (fun s => priceQ cs s.1 * s.2)).sum, []) := by
  rw [calc_eq cs _ (saleOK_of_mem_map sales), totalOf_map_good cs sales h,
    warningsOf_map_good cs sales h]

theorem c1_witness :
    calculate_total_cost
        (catVal [("Apple", Value.num (3/2)), ("Banana", Value.num (1/2))])
        (.list ([("Apple", (4 : ℚ)), ("Banana", 2)].map saleVal)) =
      .ok (7, []) :=
  (c1_no_anomaly_total _ _ (by decide)).trans
    (by simp +decide [priceQ, priceOpt, priceMapV, toNumQ_num]; norm_num)

/-- C2 counterexample: `calculate_total_cost` does raise on some
malformed inputs. A sale record that is not an object makes `sale.get`
raise `AttributeError` (line 42); a catalogue item without a `"title"` key
makes the dict comprehension raise `KeyError` (line 40). Neither is
caught, so not every anomaly becomes a warning. -/
theorem c2_counterexample :
    calculate_total_cost (Value.list []) (Value.list [Value.str "x"]) =
        Except.error PyError.attributeError ∧
      calculate_total_cost (Value.list [Value.dict []]) (Value.list []) =
        Except.error PyError.keyError :=
  ⟨rfl, rfl⟩

/-- C2 amended: on catalogues whose items are objects with `title` and
`price` keys and hashable titles, and sales sequences whose records are
objects with hashable (or falsy) products, `calculate_total_cost` never
raises: it returns a total and a warning list, so no malformed record
aborts processing of the rest. -/
theorem c2_no_raise (items sales : List Value)
    (hi : ∀ i ∈ items, itemOK i = true) (hs : ∀ s ∈ sales, saleOK s = true) :
    ∃ r, calculate_total_cost (.list items) (.list sales) = .ok r := by
  obtain ⟨d, hd⟩ := buildPriceDict_ok items hi []
  refine ⟨(0 + totalOf d sales, [] ++ warningsOf d sales), ?_⟩
  simp only [calculate_total_cost, Value.pyIter, hd]
  exact processSales_eq d sales 0 [] hs

theorem c2_witness :
    ∃ r, calculate_total_cost (.list [catItem ("A", Value.num 2)])
        (.list [Value.dict [], saleVal ("A", 1)]) = .ok r :=
  c2_no_raise _ _ (by decide) (by decide)

theorem saleOK_sandwich (sales1 sales2 : List (String × ℚ)) (r : Value)
    (hr : saleOK r = true) :
    ∀ s ∈ sales1.map saleVal ++ r :: sales2.map saleVal, saleOK s = true := by
  intro s hs
  rcases List.mem_append.1 hs with hA | hB
  · exact saleOK_of_mem_map _ s hA
  · rcases List.mem_cons.1 hB with rfl | hB2
    · exact hr
    · exact saleOK_of_mem_map _ s hB2

/-- Evaluation of a run whose records are anomaly-free except possibly one
record `r` in the middle: the total is the two surrounding sums plus `r`'s
contribution, and the only warnings are `r`'s. -/
theorem calc_sandwich (cs : List (String × Value)) (sales1 sales2 : List (String × ℚ))
    (r : Value) (hr : saleOK r = true)
    (h1 : ∀ s ∈ sales1, s.1 ≠ "" ∧ (priceOpt cs s.1).isSome = true)
    (h2 : ∀ s ∈ sales2, s.1 ≠ "" ∧ (priceOpt cs s.1).isSome = true) :
    calculate_total_cost (catVal cs)
        (.list (sales1.map saleVal ++ r :: sales2.map saleVal)) =
      .ok ((sales1.map (fun s => priceQ cs s.1 * s.2)).sum +
            (contrib (priceDictOf cs) r +
              (sales2.map (fun s => priceQ cs s.1 * s.2)).sum),
        (saleWarning (priceDictOf cs) r).toList) := by
  rw [calc_eq _ _ (saleOK_sandwich sales1 sales2 r hr), totalOf_append,
    totalOf_cons, totalOf_map_good cs sales1 h1, totalOf_map_good cs sales2 h2,
    warningsOf_append, warningsOf_cons, warningsOf_map_good cs sales1 h1,
    warningsOf_map_good cs sales2 h2]
  simp

/-- C3: a record whose product is listed but whose price or quantity is
not numeric yields exactly one error message of the form
`Error: Invalid price format for '<product>'.`, adds nothing to the total,
and the surrounding anomaly-free records still sum correctly. -/
theorem c3_invalid_price (cs : List (String × Value))
    (sales1 sales2 : List (String × ℚ)) (p : String) (qv v : Value)
    (h1 : ∀ s ∈ sales1, s.1 ≠ "" ∧ (priceOpt cs s.1).isSome = true)
    (h2 : ∀ s ∈ sales2, s.1 ≠ "" ∧ (priceOpt cs s.1).isSome = true)
    (hp : p ≠ "") (hv : priceMapV cs p = some v)
    (hbad : v.toNumQ = none ∨ qv.toNumQ = none) :
    calculate_total_cost (catVal cs)
        (.list (sales1.map saleVal ++
          Value.dict [("Product", .str p), ("Quantity", qv)] :: sales2.map saleVal)) =
      .ok ((sales1.map (fun s => priceQ cs s.1 * s.2)).sum +
            (sales2.map (fun s => priceQ cs s.1 * s.2)).sum,
        ["Error: Invalid price format for '" ++ p ++ "'."]) := by
  rw [calc_sandwich cs sales1 sales2 _ (saleOK_strProd p qv) h1 h2,
    contrib_invalid cs p qv v hp hv hbad, saleWarning_invalid cs p qv v hp hv hbad]
  simp

theorem c3_witness :
    calculate_total_cost (catVal [("Apple", Value.num 2)])
        (.list ([(("Apple" : String), (1 : ℚ))].map saleVal ++
          Value.dict [("Product", .str "Apple"), ("Quantity", Value.str "two")] ::
            [(("Apple" : String), (3 : ℚ))].map saleVal)) =
      .ok (8, ["Error: Invalid price format for 'Apple'."]) :=
  (c3_invalid_price [("Apple", Value.num 2)] _ _ "Apple" (Value.str "two")
      (Value.num 2) (by decide) (by decide) (by decide) rfl (Or.inr rfl)).trans
    (by simp +decide [priceQ, priceOpt, priceMapV, toNumQ_num]; norm_num)

/-- C4: a record whose product is absent, empty or otherwise falsy yields
exactly one `missing product name` warning and contributes nothing; the
record's quantity is arbitrary and does not influence the outcome, and the
surrounding records still sum correctly. -/
theorem c4_missing_product (cs : List (String × Value))
    (sales1 sales2 : List (String × ℚ)) (r : Value)
    (h1 : ∀ s ∈ sales1, s.1 ≠ "" ∧ (priceOpt cs s.1).isSome = true)
    (h2 : ∀ s ∈ sales2, s.1 ≠ "" ∧ (priceOpt cs s.1).isSome = true)
    (hd : isDictV r = true) (hp : (pyGetD r "Product").truthy = false) :
    calculate_total_cost (catVal cs)
        (.list (sales1.map saleVal ++ r :: sales2.map saleVal)) =
      .ok ((sales1.map (fun s => priceQ cs s.1 * s.2)).sum +
            (sales2.map (fun s => priceQ cs s.1 * s.2)).sum,
        ["Warning: Sale record with a missing product name."]) := by
  rw [calc_sandwich cs sales1 sales2 r (saleOK_of_falsy r hd hp) h1 h2,
    contrib_missing _ r hp, saleWarning_missing _ r hp]
  simp

theorem c4_witness :
    calculate_total_cost (catVal [("Apple", Value.num 2)])
        (.list ([(("Apple" : String), (1 : ℚ))].map saleVal ++
          Value.dict [("Product", Value.null), ("Quantity", Value.str "junk")] ::
            [(("Apple" : String), (3 : ℚ))].map saleVal)) =
      .ok (8, ["Warning: Sale record with a missing product name."]) :=
  (c4_missing_product [("Apple", Value.num 2)] _ _
      (Value.dict [("Product", Value.null), ("Quantity", Value.str "junk")])
      (by decide) (by decide) rfl rfl).trans
    (by simp +decide [priceQ, priceOpt, priceMapV, toNumQ_num]; norm_num)

/-- C5: a record whose product is non-empty but not a key of the price
mapping yields exactly one warning naming that product, contributes
nothing, and the surrounding records still sum correctly. -/
theorem c5_unlisted_product (cs : List (String × Value))
    (sales1 sales2 : List (String × ℚ)) (p : String) (qv : Value)
    (h1 : ∀ s ∈ sales1, s.1 ≠ "" ∧ (priceOpt cs s.1).isSome = true)
    (h2 : ∀ s ∈ sales2, s.1 ≠ "" ∧ (priceOpt cs s.1).isSome = true)
    (hp : p ≠ "") (hm : priceMapV cs p = none) :
    calculate_total_cost (catVal cs)
        (.list (sales1.map saleVal ++
          Value.dict [("Product", .str p), ("Quantity", qv)] :: sales2.map saleVal)) =
      .ok ((sales1.map (fun s => priceQ cs s.1 * s.2)).sum +
            (sales2.map (fun s => priceQ cs s.1 * s.2)).sum,
        ["Warning: '" ++ p ++ "' is not listed in the price catalogue."]) := by
  rw [calc_sandwich cs sales1 sales2 _ (saleOK_strProd p qv) h1 h2,
    contrib_unlisted cs p qv hp hm, saleWarning_unlisted cs p qv hp hm]
  simp

theorem c5_witness :
    calculate_total_cost (catVal [("Apple", Value.num 2)])
        (.list ([(("Apple" : String), (1 : ℚ))].map saleVal ++
          Value.dict [("Product", .str "Mango"), ("Quantity", Value.num 1)] ::
            [(("Apple" : String), (3 : ℚ))].map saleVal)) =
      .ok (8, ["Warning: 'Mango' is not listed in the price catalogue."]) :=
  (c5_unlisted_product [("Apple", Value.num 2)] _ _ "Mango" (Value.num 1)
      (by decide) (by decide) (by decide) rfl).trans
    (by simp +decide [priceQ, priceOpt, priceMapV, toNumQ_num]; norm_num)

/-- With duplicate titles, the price mapping resolves to the later entry. -/
theorem priceMapV_dup (cs1 cs2 cs3 : List (String × Value)) (t : String)
    (p1 v : Value) (h3 : ∀ e ∈ cs3, e.1 ≠ t) :
    priceMapV (cs1 ++ (t, p1) :: (cs2 ++ (t, v) :: cs3)) t = some v := by
  have hnone : cs3.reverse.find? (fun e => e.1 == t) = none := by
    rw [List.find?_eq_none]
    intro x hx
    simp [h3 x (List.mem_reverse.1 hx)]
  unfold priceMapV
  simp [List.reverse_append, List.reverse_cons, List.append_assoc,
    List.find?_append, hnone, List.find?_cons]

/-- C6: when the catalogue lists the same title twice, the later entry's
price wins (last-write-wins): a sale of that product totals the later
price times the quantity. -/
theorem c6_last_write_wins (cs1 cs2 cs3 : List (String × Value)) (t : String)
    (p1 : Value) (r q : ℚ) (ht : t ≠ "") (h3 : ∀ e ∈ cs3, e.1 ≠ t) :
    calculate_total_cost
        (catVal (cs1 ++ (t, p1) :: (cs2 ++ (t, Value.num r) :: cs3)))
        (.list [saleVal (t, q)]) = .ok (r * q, []) := by
  have hv := priceMapV_dup cs1 cs2 cs3 t p1 (Value.num r) h3
  have hq : (priceOpt (cs1 ++ (t, p1) :: (cs2 ++ (t, Value.num r) :: cs3)) t).isSome
      = true := by
    simp [priceOpt, hv, toNumQ_num]
  have hOK : ∀ s ∈ [saleVal (t, q)], saleOK s = true := by
    intro s hs
    simp at hs
    subst hs
    exact saleOK_saleVal _
  rw [calc_eq _ _ hOK]
  simp [totalOf, warningsOf, contrib_good _ (t, q) ht hq,
    saleWarning_good _ (t, q) ht hq, priceQ, priceOpt, hv, toNumQ_num]

theorem c6_witness :
    calculate_total_cost
        (catVal ([] ++ ("A", Value.num 2) :: ([] ++ ("A", Value.num 5) ::
          [("B", Value.num 9)])))
        (.list [saleVal ("A", 3)]) = .ok (15, []) :=
  (c6_last_write_wins [] [] [("B", Value.num 9)] "A" (Value.num 2) 5 3
      (by decide) (by decide)).trans (by norm_num)

/-- C7 counterexample: an input that loads and parses successfully (it is
`some ...`, not a load failure) but is falsy — the empty list `[]` — still
makes `main` exit with status 1 before the accumulator is invoked, so
"non-zero exit exactly when a file is missing or contains invalid JSON"
is false. -/
theorem c7_counterexample :
    main_outcome (some (Value.list [])) (some (Value.list [saleVal ("A", 1)])) =
        MainOutcome.exitOne ∧
      (some (Value.list []) : Option Value) ≠ none :=
  ⟨rfl, by simp⟩

/-- C7 amended: `main` exits 1 without invoking the accumulator exactly
when a load fails (`None`) or a loaded document is falsy (empty list,
empty object, etc.); whenever both documents are truthy the accumulator is
invoked on them, so record-level anomalies (which only add warnings to an
`ok` result) never cause the pre-accumulation exit. -/
theorem c7_exit_characterisation (pc sd : Option Value) :
    (main_outcome pc sd = MainOutcome.exitOne ↔
      (optTruthy pc = false ∨ optTruthy sd = false)) ∧
    (∀ v w, pc = some v → sd = some w → v.truthy = true → w.truthy = true →
      main_outcome pc sd = .accumulated (calculate_total_cost v w)) := by
  cases pc with
  | none => simp [main_outcome, optTruthy]
  | some v =>
      cases sd with
      | none => simp [main_outcome, optTruthy]
      | some w =>
          cases hv : v.truthy <;> cases hw : w.truthy <;>
            simp [main_outcome, optTruthy, hv, hw]

theorem c7_witness :
    main_outcome (some (catVal [("A", Value.num 2)]))
        (some (Value.list [saleVal ("A", 3)])) =
      MainOutcome.accumulated
        (calculate_total_cost (catVal [("A", Value.num 2)])
          (Value.list [saleVal ("A", 3)])) :=
  (c7_exit_characterisation _ _).2 _ _ rfl rfl (by decide) (by decide)

/-- C8: `calculate_total_cost` is deterministic — equal catalogue and
sales inputs give equal (total, warnings) results. The embedding is a pure
function because the source mutates only the function-local variables
`total_cost`, `errors` and `price_dict`, never its arguments. -/
theorem c8_pure_deterministic (pc1 sd1 pc2 sd2 : Value)
    (hpc : pc1 = pc2) (hsd : sd1 = sd2) :
    calculate_total_cost pc1 sd1 = calculate_total_cost pc2 sd2 := by
  rw [hpc, hsd]

theorem c8_witness :
    calculate_total_cost (Value.list []) (Value.list []) =
      calculate_total_cost (Value.list []) (Value.list []) :=
  c8_pure_deterministic (Value.list []) (Value.list []) (Value.list [])
    (Value.list []) rfl rfl

/-- Every record either warns or contributes, never both. -/
theorem saleWarning_none_or_contrib_zero (d : PriceDict) (s : Value) :
    saleWarning d s = none ∨ contrib d s = 0 := by
  by_cases h1 : (pyGetD s "Product").truthy = false
  · exact Or.inr (by simp [contrib, h1])
  · by_cases h2 : dictHasKey d (pyGetD s "Product") = false
    · exact Or.inr (by simp [contrib, h1, h2])
    · cases hP : ((dictLookup d (pyGetD s "Product")).getD Value.null).toNumQ with
      | none =>
          cases hQ : (pyGetD s "Quantity").toNumQ <;>
            exact Or.inr (by simp [contrib, h1, h2, hP, hQ])
      | some p =>
          cases hQ : (pyGetD s "Quantity").toNumQ with
          | none => exact Or.inr (by simp [contrib, h1, h2, hP, hQ])
          | some q => exact Or.inl (by simp [saleWarning, h1, h2, hP, hQ])

/-- Warning count plus contributing-record count equals record count. -/
theorem length_filterMap_add_countP (d : PriceDict) (sales : List Value) :
    (sales.filterMap (saleWarning d)).length +
      sales.countP (fun s => (saleWarning d s).isNone) = sales.length := by
  induction sales with
  | nil => rfl
  | cons s rest ih =>
      cases hw : saleWarning d s <;>
        simp [List.filterMap_cons, List.countP_cons, hw] <;> omega

/-- C9: on records the loop cannot raise on, each record yields exactly
one outcome — one warning (in input order, by `filterMap`) or one addend —
so warning count plus contributing count equals record count, and a record
that warns contributes nothing. -/
theorem c9_one_outcome_per_record (cs : List (String × Value)) (sales : List Value)
    (h : ∀ s ∈ sales, saleOK s = true) :
    calculate_total_cost (catVal cs) (.list sales) =
        .ok (totalOf (priceDictOf cs) sales, warningsOf (priceDictOf cs) sales) ∧
      (warningsOf (priceDictOf cs) sales).length +
          sales.countP (fun s => (saleWarning (priceDictOf cs) s).isNone) =
        sales.length ∧
      ∀ s ∈ sales, saleWarning (priceDictOf cs) s = none ∨
        contrib (priceDictOf cs) s = 0 :=
  ⟨calc_eq cs sales h, length_filterMap_add_countP _ _,
    fun s _ => saleWarning_none_or_contrib_zero _ s⟩

theorem c9_witness :
    (calculate_total_cost (catVal [("A", Value.num 2)])
          (.list [saleVal ("A", 3), Value.dict [],
            Value.dict [("Product", Value.str "Zed"), ("Quantity", Value.num 1)]]) =
        .ok (totalOf (priceDictOf [("A", Value.num 2)])
            [saleVal ("A", 3), Value.dict [],
              Value.dict [("Product", Value.str "Zed"), ("Quantity", Value.num 1)]],
          warningsOf (priceDictOf [("A", Value.num 2)])
            [saleVal ("A", 3), Value.dict [],
              Value.dict [("Product", Value.str "Zed"), ("Quantity", Value.num 1)]])) ∧
      (warningsOf (priceDictOf [("A", Value.num 2)])
            [saleVal ("A", 3), Value.dict [],
              Value.dict [("Product", Value.str "Zed"), ("Quantity", Value.num 1)]]).length +
          [saleVal ("A", 3), Value.dict [],
            Value.dict [("Product", Value.str "Zed"),
              ("Quantity", Value.num 1)]].countP
            (fun s => (saleWarning (priceDictOf [("A", Value.num 2)]) s).isNone) =
        [saleVal ("A", 3), Value.dict [],
          Value.dict [("Product", Value.str "Zed"), ("Quantity", Value.num 1)]].length ∧
      ∀ s ∈ [saleVal ("A", 3), Value.dict [],
          Value.dict [("Product", Value.str "Zed"), ("Quantity", Value.num 1)]],
        saleWarning (priceDictOf [("A", Value.num 2)]) s = none ∨
          contrib (priceDictOf [("A", Value.num 2)]) s = 0 :=
  c9_one_outcome_per_record [("A", Value.num 2)] _ (by decide)

/-- C10: a boolean quantity on a listed, numerically priced product is not
an anomaly: there is no warning and it contributes price times 1 for
`True` and price times 0 for `False`, since Python booleans multiply as
integers. -/
theorem c10_bool_quantity (cs : List (String × Value)) (t : String) (r : ℚ)
    (b : Bool) (ht : t ≠ "") (hv : priceMapV cs t = some (Value.num r)) :
    calculate_total_cost (catVal cs)
        (.list [Value.dict [("Product", Value.str t), ("Quantity", Value.bool b)]]) =
      .ok (r * (if b then 1 else 0), []) := by
  have hOK : ∀ s ∈ [Value.dict [("Product", Value.str t), ("Quantity", Value.bool b)]],
      saleOK s = true := by
    intro s hs
    simp at hs
    subst hs
    exact saleOK_strProd t (Value.bool b)
  rw [calc_eq _ _ hOK]
  simp [totalOf, warningsOf, contrib_boolQty cs t r b ht hv,
    saleWarning_boolQty cs t r b ht hv]

theorem c10_witness :
    calculate_total_cost (catVal [("A", Value.num 2)])
        (.list [Value.dict [("Product", Value.str "A"), ("Quantity", Value.bool true)]]) =
      .ok (2, []) :=
  (c10_bool_quantity [("A", Value.num 2)] "A" 2 true (by decide) rfl).trans
    (by norm_num)

end ComputeSales
